import Mathlib

/-!
Verification of the AI Career Advisor repository (React frontend talking to a
FastAPI backend over REST).  The TypeScript sources under the frontend are
embedded shallowly: pure rendering and state-update logic becomes Lean
functions, the axios HTTP layer becomes an explicit outcome value, and the
backend questionnaire pipeline (absent from the sources, only its callers are
present) is modelled from the specification where a claim needs it.
Numeric scores are modelled with rationals.
-/

namespace CareerAdvisor

/-- A submitted answer value: the TypeScript response field is `any`; in
practice it is a string (multiple choice or free text) or a number (scale
slider, produced by `parseInt`). -/
inductive Answer
  | str (s : String)
  | num (n : Int)
deriving DecidableEq, Repr

/-- Question record.  Field names and types follow the `Question` interface in
the questionnaire component (id, question, question_type, options, scale_min,
scale_max, category, importance).  The `required` flag is Modelled from the
spec: the backend submission contract speaks of Questions "marked required",
and no backend source is present. -/
structure Question where
  id : String
  question : String
  question_type : String
  options : List String
  scale_min : Option Int
  scale_max : Option Int
  category : String
  importance : ℚ
  required : Bool
deriving DecidableEq, Repr

/-- One serialized response entry, as built in `submitQuestionnaire`:
`{ question_id, response, timestamp }`. -/
structure QResponse where
  question_id : String
  response : Answer
  timestamp : String
deriving DecidableEq, Repr

/-- `handleResponse` from the questionnaire component: the responses object is
updated with `{...prev, [questionId]: response}`.  A JavaScript object keeps
one value per key, so an existing key is overwritten in place and a new key is
appended. -/
def handleResponse (m : List (String × Answer)) (qid : String) (v : Answer) :
    List (String × Answer) :=
  if m.any (fun p => p.1 == qid) then
    m.map (fun p => if p.1 == qid then (p.1, v) else p)
  else
    m ++ [(qid, v)]

/-- Lookup of `responses[questionId]`; `none` models the JavaScript value
`undefined`. -/
def lookupResponse (m : List (String × Answer)) (qid : String) : Option Answer :=
  (m.find? (fun p => p.1 == qid)).map Prod.snd

/-- Serialization in `submitQuestionnaire`:
`Object.entries(responses).map(([questionId, response]) => ({question_id, response, timestamp}))`. -/
def responseArray (m : List (String × Answer)) (ts : String) : List QResponse :=
  m.map (fun p => { question_id := p.1, response := p.2, timestamp := ts })

/-- Replaying a sequence of `handleResponse` calls starting from the empty
responses object. -/
def runResponses (actions : List (String × Answer)) : List (String × Answer) :=
  actions.foldl (fun m a => handleResponse m a.1 a.2) []

/-- The key list of the responses object is unchanged by an overwrite and
extended by exactly the new key otherwise. -/
theorem handleResponse_keys (m : List (String × Answer)) (qid : String) (v : Answer) :
    (handleResponse m qid v).map Prod.fst =
      if m.any (fun p => p.1 == qid) then m.map Prod.fst
      else m.map Prod.fst ++ [qid] := by
  unfold handleResponse
  split
  · rw [List.map_map]
    apply List.map_congr_left
    intro p _
    by_cases hp : p.1 = qid <;> simp [hp]
  · simp

/-- `handleResponse` preserves distinctness of the keys. -/
theorem handleResponse_nodup (m : List (String × Answer)) (qid : String) (v : Answer)
    (h : (m.map Prod.fst).Nodup) : ((handleResponse m qid v).map Prod.fst).Nodup := by
  rw [handleResponse_keys]
  split
  · exact h
  · rename_i hany
    rw [List.nodup_append]
    refine ⟨h, List.nodup_singleton qid, ?_⟩
    intro a ha hb
    simp only [List.mem_singleton] at hb
    subst hb
    rw [List.mem_map] at ha
    obtain ⟨p, hp, hfst⟩ := ha
    rw [List.any_eq_true] at hany
    exact hany ⟨p, hp, by simp [hfst]⟩

theorem runResponses_keys_nodup (actions : List (String × Answer)) :
    ((runResponses actions).map Prod.fst).Nodup := by
  suffices h : ∀ (m : List (String × Answer)), (m.map Prod.fst).Nodup →
      ((actions.foldl (fun m a => handleResponse m a.1 a.2) m).map Prod.fst).Nodup by
    exact h [] (by simp)
  induction actions with
  | nil => intro m hm; simpa using hm
  | cons a rest ih =>
    intro m hm
    exact ih _ (handleResponse_nodup m a.1 a.2 hm)

/-- C7: every submission contains at most one Response per Question.  Because
responses accumulate in an object keyed by question id (`handleResponse`) and
`submitQuestionnaire` serializes one entry per key, the `question_id` values
in the submitted array are pairwise distinct for every sequence of user
answers, including overwrites. -/
theorem claim_C7 (actions : List (String × Answer)) (ts : String) :
    ((responseArray (runResponses actions) ts).map (fun r => r.question_id)).Nodup := by
  have h := runResponses_keys_nodup actions
  unfold responseArray
  rw [List.map_map]
  exact h

/-! ### Questionnaire component state machine (claims C9, C10) -/

/-- Mutable state of the `OnboardingQuestionnaire` component that the
navigation logic touches: the loaded question list, the responses object and
`currentQuestionIndex` (initialized to 0). -/
structure QState where
  questions : List Question
  responses : List (String × Answer)
  currentQuestionIndex : Nat
deriving Repr

/-- User events the component reacts to: the Next and Previous buttons and a
response input. -/
inductive QEvent
  | next
  | prev
  | answer (qid : String) (v : Answer)
deriving DecidableEq, Repr

/-- One step of the component.  `goToNext` increments only when
`currentQuestionIndex < questions.length - 1`; `goToPrevious` decrements only
when `currentQuestionIndex > 0`; answering updates the responses object. -/
def qStep (s : QState) (e : QEvent) : QState :=
  match e with
  | .next =>
      if s.currentQuestionIndex < s.questions.length - 1 then
        { s with currentQuestionIndex := s.currentQuestionIndex + 1 }
      else s
  | .prev =>
      if 0 < s.currentQuestionIndex then
        { s with currentQuestionIndex := s.currentQuestionIndex - 1 }
      else s
  | .answer qid v => { s with responses := handleResponse s.responses qid v }

/-- Initial state after a successful questionnaire load: `questions` set from
the response, empty responses object, index 0. -/
def qInit (qs : List Question) : QState :=
  { questions := qs, responses := [], currentQuestionIndex := 0 }

/-- The component state reached after a successful load followed by a sequence
of user events. -/
def qRun (qs : List Question) (es : List QEvent) : QState :=
  es.foldl qStep (qInit qs)

/-- Views the component can render, in the guard order of the source: loading
state, error state, empty state, and only then the current question, accessed
as `questions[currentQuestionIndex]`. -/
inductive QView
  | loadingView
  | errorView
  | emptyView
  | questionView (index : Nat)
deriving DecidableEq, Repr

/-- Render dispatch of the questionnaire component. -/
def qRender (isLoading : Bool) (error : String) (s : QState) : QView :=
  if isLoading then .loadingView
  else if error ≠ "" then .errorView
  else if s.questions.length = 0 then .emptyView
  else .questionView s.currentQuestionIndex

theorem qStep_questions (s : QState) (e : QEvent) : (qStep s e).questions = s.questions := by
  cases e <;> simp only [qStep] <;> split <;> rfl

theorem qStep_index_lt (s : QState) (e : QEvent)
    (h : s.currentQuestionIndex < s.questions.length) :
    (qStep s e).currentQuestionIndex < (qStep s e).questions.length := by
  rw [qStep_questions]
  cases e with
  | next =>
    simp only [qStep]
    split
    · rename_i hlt
      show s.currentQuestionIndex + 1 < s.questions.length
      omega
    · exact h
  | prev =>
    simp only [qStep]
    split
    · rename_i hlt
      show s.currentQuestionIndex - 1 < s.questions.length
      omega
    · exact h
  | answer qid v => exact h

theorem qRun_questions (qs : List Question) (es : List QEvent) :
    (qRun qs es).questions = qs := by
  suffices h : ∀ (s : QState), (es.foldl qStep s).questions = s.questions by
    exact h (qInit qs)
  induction es with
  | nil => intro s; rfl
  | cons e rest ih =>
    intro s
    rw [List.foldl_cons, ih, qStep_questions]

theorem qRun_index_lt (qs : List Question) (es : List QEvent) (hqs : qs ≠ []) :
    (qRun qs es).currentQuestionIndex < (qRun qs es).questions.length := by
  suffices h : ∀ (s : QState), s.currentQuestionIndex < s.questions.length →
      (es.foldl qStep s).currentQuestionIndex < (es.foldl qStep s).questions.length by
    apply h (qInit qs)
    simpa [qInit] using List.length_pos.mpr hqs
  induction es with
  | nil => intro s hs; exact hs
  | cons e rest ih =>
    intro s hs
    exact ih _ (qStep_index_lt s e hs)

/-- C9: with a non-empty question list, `currentQuestionIndex` stays strictly
below `questions.length` in every reachable state (the index starts at 0 and
Next and Previous clamp at the ends), so `questions[currentQuestionIndex]` is
in bounds; with an empty question list the component renders the empty-state
view before any indexing. -/
theorem claim_C9 (qs : List Question) (es : List QEvent) :
    (qs ≠ [] →
      (qRun qs es).currentQuestionIndex < (qRun qs es).questions.length ∧
      (qRun qs es).questions = qs) ∧
    qRender false "" (qRun [] es) = QView.emptyView := by
  refine ⟨fun hqs => ⟨qRun_index_lt qs es hqs, qRun_questions qs es⟩, ?_⟩
  have h : (qRun [] es).questions = [] := qRun_questions [] es
  simp [qRender, h]

/-- A concrete question used by witnesses. -/
def sampleQuestion : Question :=
  { id := "q1", question := "How much do you enjoy solving new problems?",
    question_type := "scale", options := [], scale_min := some 1,
    scale_max := some 10, category := "openness", importance := 1,
    required := true }

theorem claim_C9_witness :
    ([sampleQuestion] ≠ ([] : List Question)) ∧
    (qRun [sampleQuestion] [QEvent.next, QEvent.prev]).currentQuestionIndex <
      (qRun [sampleQuestion] [QEvent.next, QEvent.prev]).questions.length :=
  ⟨List.cons_ne_nil _ _,
    ((claim_C9 [sampleQuestion] [QEvent.next, QEvent.prev]).1 (List.cons_ne_nil _ _)).1⟩

/-! ### Scale question default value (claim C10) -/

/-- JavaScript `x || d` on an optional numeric field, where `0` is falsy: the
slider rendering uses `question.scale_max || 10` and `question.scale_min || 1`. -/
def orFalsyInt (x : Option Int) (d : Int) : Int :=
  match x with
  | none => d
  | some v => if v = 0 then d else v

/-- Midpoint shown by the scale slider:
`Math.floor(((question.scale_max || 10) + (question.scale_min || 1)) / 2)`. -/
def scaleMidpoint (q : Question) : Int :=
  Int.fdiv (orFalsyInt q.scale_max 10 + orFalsyInt q.scale_min 1) 2

/-- JavaScript falsiness of a response value (`0` and the empty string are
falsy). -/
def answerFalsy : Answer → Bool
  | .num n => n == 0
  | .str s => s == ""

/-- The value displayed by the scale slider:
`currentResponse || Math.floor(((scale_max || 10) + (scale_min || 1)) / 2)`. -/
def scaleDisplayValue (m : List (String × Answer)) (q : Question) : Answer :=
  match lookupResponse m q.id with
  | none => .num (scaleMidpoint q)
  | some a => if answerFalsy a then .num (scaleMidpoint q) else a

/-- `canProceed` from the component:
`responses[currentQuestion.id] !== undefined && responses[currentQuestion.id] !== ''`. -/
def canProceed (m : List (String × Answer)) (qid : String) : Bool :=
  match lookupResponse m qid with
  | none => false
  | some a => !(a == Answer.str "")

/-- The Next button carries `disabled={!canProceed}`. -/
def nextButtonDisabled (cp : Bool) : Bool := !cp

/-- The submit button carries `disabled={!canProceed || isSubmitting}`. -/
def submitButtonDisabled (cp : Bool) (isSubmitting : Bool) : Bool := !cp || isSubmitting

theorem lookupResponse_handleResponse_other (m : List (String × Answer))
    (qid target : String) (v : Answer) (hne : qid ≠ target)
    (h : lookupResponse m target = none) :
    lookupResponse (handleResponse m qid v) target = none := by
  unfold lookupResponse at h ⊢
  rw [Option.map_eq_none'] at h ⊢
  rw [List.find?_eq_none] at h ⊢
  intro p hp
  unfold handleResponse at hp
  split at hp
  · rw [List.mem_map] at hp
    obtain ⟨p', hp', heq⟩ := hp
    have := h p' hp'
    by_cases hc : p'.1 = qid
    · simp only [hc, if_pos rfl] at heq
      subst heq
      simpa using hne
    · rw [if_neg (by simpa using hc)] at heq
      subst heq
      exact this
  · rw [List.mem_append] at hp
    rcases hp with hp | hp
    · exact h p hp
    · simp only [List.mem_singleton] at hp
      subst hp
      simpa using hne

/-- C10: for a scale question the displayed midpoint is display-only.  While
`responses[question.id]` is undefined, the slider shows the midpoint, the
serialized submission carries no entry for the question, `canProceed` is
false, the Next and submit buttons are disabled, and answering any other
question leaves the entry undefined. -/
theorem claim_C10 (m : List (String × Answer)) (q : Question)
    (isSubmitting : Bool) (ts : String)
    (h : lookupResponse m q.id = none) :
    scaleDisplayValue m q = Answer.num (scaleMidpoint q) ∧
    canProceed m q.id = false ∧
    nextButtonDisabled (canProceed m q.id) = true ∧
    submitButtonDisabled (canProceed m q.id) isSubmitting = true ∧
    (∀ r ∈ responseArray m ts, r.question_id ≠ q.id) ∧
    (∀ (qid : String) (v : Answer), qid ≠ q.id →
      lookupResponse (handleResponse m qid v) q.id = none) := by
  have hcp : canProceed m q.id = false := by
    unfold canProceed
    rw [h]
  refine ⟨?_, hcp, ?_, ?_, ?_, ?_⟩
  · unfold scaleDisplayValue
    rw [h]
  · rw [hcp]; rfl
  · rw [hcp]; rfl
  · intro r hr
    unfold responseArray at hr
    rw [List.mem_map] at hr
    obtain ⟨p, hp, hpr⟩ := hr
    subst hpr
    intro hid
    unfold lookupResponse at h
    rw [Option.map_eq_none', List.find?_eq_none] at h
    exact h p hp (by simpa using hid)
  · intro qid v hne
    exact lookupResponse_handleResponse_other m qid q.id v hne h

theorem claim_C10_witness :
    (lookupResponse [] sampleQuestion.id = none) ∧
    scaleDisplayValue [] sampleQuestion = Answer.num 5 ∧
    canProceed [] sampleQuestion.id = false ∧
    submitButtonDisabled (canProceed [] sampleQuestion.id) false = true := by
  have h := claim_C10 [] sampleQuestion false "2024-01-01T00:00:00Z" rfl
  exact ⟨rfl, by rw [h.1]; rfl, h.2.1, h.2.2.2.1⟩

/-! ### ApiService and the axios layer (claims C4, C5, C8) -/

/-- Relevant fields of an axios error object: `error.code` (for example
`ECONNABORTED` on timeout), `error.response?.status`,
`error.response?.data?.detail` and `error.message`.  `none` models an absent
(`undefined`) field. -/
structure AxiosError where
  code : Option String
  status : Option Nat
  detail : Option String
  message : Option String
deriving DecidableEq, Repr

/-- Outcome of one awaited HTTP request made through the shared axios
instance. -/
inductive AxiosOutcome (α : Type)
  | success (data : α)
  | failure (e : AxiosError)

/-- The request timeout configured on the shared axios instance:
`timeout: 10000` (ten seconds). -/
def apiTimeoutMs : Nat := 10000

/-- The module-level flag `USE_MOCK_DATA = false`. -/
def USE_MOCK_DATA : Bool := false

/-- The `await api...; return response.data` shape with no catch block: the
HTTP error propagates to the caller. -/
def passthrough {α : Type} (o : AxiosOutcome α) : Except AxiosError α :=
  match o with
  | .success d => .ok d
  | .failure e => .error e

/-- `ApiService.registerUser`: posts and propagates errors. -/
def registerUser {α : Type} (o : AxiosOutcome α) : Except AxiosError α := passthrough o

/-- `ApiService.generateQuestionnaire`: gets and propagates errors. -/
def generateQuestionnaire {α : Type} (o : AxiosOutcome α) : Except AxiosError α := passthrough o

/-- `ApiService.submitQuestionnaire`: posts to
`/api/questionnaire/submit/{user_id}` and propagates errors. -/
def apiSubmitQuestionnaire {α : Type} (o : AxiosOutcome α) : Except AxiosError α := passthrough o

/-- `ApiService.getQuestionnaireStatus`: gets and propagates errors. -/
def getQuestionnaireStatus {α : Type} (o : AxiosOutcome α) : Except AxiosError α := passthrough o

/-- `ApiService.getCareerTrends`: gets and propagates errors. -/
def getCareerTrends {α : Type} (o : AxiosOutcome α) : Except AxiosError α := passthrough o

/-- `ApiService.getSkillDemandAnalysis`: gets and propagates errors. -/
def getSkillDemandAnalysis {α : Type} (o : AxiosOutcome α) : Except AxiosError α := passthrough o

/-- `ApiService.getMarketPredictions`: gets and propagates errors. -/
def getMarketPredictions {α : Type} (o : AxiosOutcome α) : Except AxiosError α := passthrough o

/-- Health payload shape returned by `healthCheck`. -/
structure HealthPayload where
  status : String
  timestamp : String
  database : String
  agents : Nat
  llm : String
deriving DecidableEq, Repr

/-- The hard-coded mock health object from the catch branch of `healthCheck`
(its timestamp is the current time, passed here explicitly). -/
def mockHealth (now : String) : HealthPayload :=
  { status := "healthy (mock)", timestamp := now,
    database := "connected (mock)", agents := 3, llm := "available (mock)" }

/-- `ApiService.healthCheck`: on any HTTP failure it returns the mock health
object instead of rejecting. -/
def healthCheck (now : String) (o : AxiosOutcome HealthPayload) :
    Except AxiosError HealthPayload :=
  match o with
  | .success d => .ok d
  | .failure _ => .ok (mockHealth now)

/-- User profile payload shape. -/
structure ProfilePayload where
  user_id : String
  name : String
  email : String
  age : Nat
  location : String
  education_level : String
  career_stage : String
deriving DecidableEq, Repr

/-- The module-level `mockProfile` constant. -/
def mockProfile : ProfilePayload :=
  { user_id := "demo-user", name := "Demo User", email := "demo@example.com",
    age := 28, location := "New York, NY", education_level := "bachelor",
    career_stage := "mid_level" }

/-- `ApiService.getUserProfile`: returns `mockProfile` when `USE_MOCK_DATA`
is set, otherwise tries the backend and falls back to `mockProfile` on any
failure. -/
def getUserProfile (o : AxiosOutcome ProfilePayload) : Except AxiosError ProfilePayload :=
  if USE_MOCK_DATA then .ok mockProfile
  else
    match o with
    | .success d => .ok d
    | .failure _ => .ok mockProfile

/-- Analysis request body. -/
structure CareerAnalysisRequest where
  user_id : String
  analysis_type : String
deriving DecidableEq, Repr

/-- Analysis payload shape (trimmed to the scalar content of the mock). -/
structure AnalysisPayload where
  request_id : String
  user_id : String
  analysis_type : String
  personality_scores : List (String × ℚ)
  interest_scores : List (String × ℚ)
  career_matches : List (String × ℚ)
  confidence : ℚ
  processing_time_ms : Nat
deriving DecidableEq, Repr

/-- The hard-coded mock analysis from the catch branch of
`performCareerAnalysis`; its `request_id` interpolates `Date.now()`, passed
here explicitly as `nowMs`. -/
def mockAnalysis (nowMs : Nat) (req : CareerAnalysisRequest) : AnalysisPayload :=
  { request_id := "mock-analysis-" ++ toString nowMs,
    user_id := req.user_id, analysis_type := req.analysis_type,
    personality_scores :=
      [("openness", 0.75), ("conscientiousness", 0.68), ("extraversion", 0.52),
       ("agreeableness", 0.71), ("neuroticism", 0.34)],
    interest_scores :=
      [("realistic", 0.45), ("investigative", 0.82), ("artistic", 0.68),
       ("social", 0.58), ("enterprising", 0.71), ("conventional", 0.49)],
    career_matches := [("Data Scientist", 87), ("Product Manager", 82)],
    confidence := 85.5, processing_time_ms := 1250 }

/-- `ApiService.performCareerAnalysis`: on any HTTP failure it returns the
mock analysis instead of rejecting. -/
def performCareerAnalysis (nowMs : Nat) (req : CareerAnalysisRequest)
    (o : AxiosOutcome AnalysisPayload) : Except AxiosError AnalysisPayload :=
  match o with
  | .success d => .ok d
  | .failure _ => .ok (mockAnalysis nowMs req)

/-- Chat payload shape (trimmed to the scalar content of the mock). -/
structure ChatPayload where
  response : String
  sentiment : String
  confidence_level : ℚ
  follow_up_actions : List String
deriving DecidableEq, Repr

/-- The hard-coded mock chat reply from the catch branch of
`chatWithCounselor`. -/
def mockChatResponse : ChatPayload :=
  { response := "I understand your concerns about career development. Based on your message, I\x27d recommend focusing on building both technical skills and leadership capabilities. Consider setting specific, measurable goals for the next 6 months and identifying mentors in your target field.",
    sentiment := "neutral", confidence_level := 0.78,
    follow_up_actions :=
      ["Set 3 specific career goals for next quarter",
       "Identify 2 potential mentors in your field",
       "Research top skills needed in your target role"] }

/-- `ApiService.chatWithCounselor`: posts to `/api/agents/counseling/chat`;
on any HTTP failure (including the axios timeout) it returns the mock chat
reply instead of rejecting. -/
def chatWithCounselor (o : AxiosOutcome ChatPayload) : Except AxiosError ChatPayload :=
  match o with
  | .success d => .ok d
  | .failure _ => .ok mockChatResponse

/-- Recommendations payload of `GET /api/agents/recommendations/{user_id}`.
The mock object has no `requires_questionnaire` key, which reads as
`undefined` (falsy) in the dashboard, modelled as `false`. -/
structure AgentRecommendations where
  requires_questionnaire : Bool
  recommendations : List String
  confidence : ℚ
  explanation : String
deriving DecidableEq, Repr

/-- The hard-coded mock recommendations from `getCareerRecommendations`. -/
def mockRecommendations : AgentRecommendations :=
  { requires_questionnaire := false,
    recommendations :=
      ["Focus on developing data visualization skills with tools like Tableau or PowerBI",
       "Consider pursuing a certification in cloud computing (AWS, Azure, or GCP)",
       "Build a strong LinkedIn presence and engage with industry thought leaders",
       "Practice technical interviewing with platforms like LeetCode or HackerRank"],
    confidence := 0.87,
    explanation := "These recommendations are based on your technical background, career goals, and current market trends in your field." }

/-- `ApiService.getCareerRecommendations`: returns the mock list when
`USE_MOCK_DATA` is set, otherwise tries the backend and falls back to the
mock list on any failure. -/
def getCareerRecommendations (o : AxiosOutcome AgentRecommendations) :
    Except AxiosError AgentRecommendations :=
  if USE_MOCK_DATA then .ok mockRecommendations
  else
    match o with
    | .success d => .ok d
    | .failure _ => .ok mockRecommendations

/-- System metrics payload shape (trimmed to the mock content). -/
structure MetricsPayload where
  agent_names : List String
  system_status : String
  timestamp : String
deriving DecidableEq, Repr

/-- The hard-coded mock metrics from the catch branch of `getSystemMetrics`. -/
def mockSystemMetrics (now : String) : MetricsPayload :=
  { agent_names := ["career_analyst", "mentor_bot", "skills_assessor"],
    system_status := "operational (mock)", timestamp := now }

/-- `ApiService.getSystemMetrics`: on any HTTP failure it returns the mock
metrics instead of rejecting. -/
def getSystemMetrics (now : String) (o : AxiosOutcome MetricsPayload) :
    Except AxiosError MetricsPayload :=
  match o with
  | .success d => .ok d
  | .failure _ => .ok (mockSystemMetrics now)

/-- One record of the module-level `mockConversations` array. -/
structure ConversationRecord where
  message_id : String
  agent_name : String
  user_message : String
  agent_response : String
  timestamp : String
deriving DecidableEq, Repr

/-- The module-level `mockConversations` array; its two timestamps (now and
one day earlier) are passed explicitly. -/
def mockConversations (nowIso dayAgoIso : String) : List ConversationRecord :=
  [{ message_id := "1", agent_name := "Career Analyst",
     user_message := "What career path suits my interests?",
     agent_response := "Based on your profile, I recommend exploring data science and software engineering roles.",
     timestamp := nowIso },
   { message_id := "2", agent_name := "Mentor Bot",
     user_message := "How can I improve my resume?",
     agent_response := "Focus on quantifiable achievements and tailor your resume to each job application.",
     timestamp := dayAgoIso }]

/-- Conversation history payload. -/
structure ConversationHistory where
  user_id : String
  conversations : List ConversationRecord
  total_count : Nat
deriving DecidableEq, Repr

/-- The mock history built in `getConversationHistory`:
`mockConversations.slice(0, limit)` with `total_count` the full mock length. -/
def mockHistory (uid : String) (limit : Nat) (nowIso dayAgoIso : String) :
    ConversationHistory :=
  { user_id := uid,
    conversations := (mockConversations nowIso dayAgoIso).take limit,
    total_count := (mockConversations nowIso dayAgoIso).length }

/-- `ApiService.getConversationHistory`: returns the mock history when
`USE_MOCK_DATA` is set, otherwise tries the backend and falls back to the
mock history on any failure. -/
def getConversationHistory (uid : String) (limit : Nat) (nowIso dayAgoIso : String)
    (o : AxiosOutcome ConversationHistory) : Except AxiosError ConversationHistory :=
  if USE_MOCK_DATA then .ok (mockHistory uid limit nowIso dayAgoIso)
  else
    match o with
    | .success d => .ok d
    | .failure _ => .ok (mockHistory uid limit nowIso dayAgoIso)

/-- C8: the seven fallback methods of `ApiService` never reject — on every
HTTP failure each resolves with its hard-coded mock payload, so callers
cannot distinguish live data from fabricated fallback data — while
`registerUser`, `generateQuestionnaire`, `submitQuestionnaire`,
`getQuestionnaireStatus` and the three analytics methods propagate the HTTP
error to the caller. -/
theorem claim_C8 :
    (∀ (now : String) (o : AxiosOutcome HealthPayload), (healthCheck now o).isOk = true) ∧
    (∀ (now : String) (e : AxiosError), healthCheck now (.failure e) = .ok (mockHealth now)) ∧
    (∀ (o : AxiosOutcome ProfilePayload), (getUserProfile o).isOk = true) ∧
    (∀ (e : AxiosError), getUserProfile (.failure e) = .ok mockProfile) ∧
    (∀ (nowMs : Nat) (req : CareerAnalysisRequest) (o : AxiosOutcome AnalysisPayload),
      (performCareerAnalysis nowMs req o).isOk = true) ∧
    (∀ (nowMs : Nat) (req : CareerAnalysisRequest) (e : AxiosError),
      performCareerAnalysis nowMs req (.failure e) = .ok (mockAnalysis nowMs req)) ∧
    (∀ (o : AxiosOutcome ChatPayload), (chatWithCounselor o).isOk = true) ∧
    (∀ (e : AxiosError), chatWithCounselor (.failure e) = .ok mockChatResponse) ∧
    (∀ (o : AxiosOutcome AgentRecommendations), (getCareerRecommendations o).isOk = true) ∧
    (∀ (e : AxiosError), getCareerRecommendations (.failure e) = .ok mockRecommendations) ∧
    (∀ (now : String) (o : AxiosOutcome MetricsPayload), (getSystemMetrics now o).isOk = true) ∧
    (∀ (now : String) (e : AxiosError), getSystemMetrics now (.failure e) = .ok (mockSystemMetrics now)) ∧
    (∀ (uid : String) (limit : Nat) (n d : String) (o : AxiosOutcome ConversationHistory),
      (getConversationHistory uid limit n d o).isOk = true) ∧
    (∀ (uid : String) (limit : Nat) (n d : String) (e : AxiosError),
      getConversationHistory uid limit n d (.failure e) = .ok (mockHistory uid limit n d)) ∧
    (∀ (α : Type) (e : AxiosError), registerUser (α := α) (.failure e) = .error e) ∧
    (∀ (α : Type) (e : AxiosError), generateQuestionnaire (α := α) (.failure e) = .error e) ∧
    (∀ (α : Type) (e : AxiosError), apiSubmitQuestionnaire (α := α) (.failure e) = .error e) ∧
    (∀ (α : Type) (e : AxiosError), getQuestionnaireStatus (α := α) (.failure e) = .error e) ∧
    (∀ (α : Type) (e : AxiosError), getCareerTrends (α := α) (.failure e) = .error e) ∧
    (∀ (α : Type) (e : AxiosError), getSkillDemandAnalysis (α := α) (.failure e) = .error e) ∧
    (∀ (α : Type) (e : AxiosError), getMarketPredictions (α := α) (.failure e) = .error e) :=
  ⟨fun _ o => by cases o <;> rfl, fun _ _ => rfl,
   fun o => by cases o <;> rfl, fun _ => rfl,
   fun _ _ o => by cases o <;> rfl, fun _ _ _ => rfl,
   fun o => by cases o <;> rfl, fun _ => rfl,
   fun o => by cases o <;> rfl, fun _ => rfl,
   fun _ o => by cases o <;> rfl, fun _ _ => rfl,
   fun _ _ _ _ o => by cases o <;> rfl, fun _ _ _ _ _ => rfl,
   fun _ _ => rfl, fun _ _ => rfl, fun _ _ => rfl, fun _ _ => rfl,
   fun _ _ => rfl, fun _ _ => rfl, fun _ _ => rfl⟩

/-! ### Surfacing of backend error details (claim C4) -/

/-- The catch block of `OnboardingQuestionnaire.submitQuestionnaire`: every
failure, whatever its backend detail, is replaced by the fixed message
`Failed to submit questionnaire. Please try again.`. -/
def submitQuestionnaireCatchMessage (_e : AxiosError) : String :=
  "Failed to submit questionnaire. Please try again."

/-- The catch block of `CareerAnalysis.runAnalysis`:
`error.response?.data?.detail || 'Analysis failed'` (the empty string is
falsy). -/
def runAnalysisCatchMessage (e : AxiosError) : String :=
  match e.detail with
  | some d => if d = "" then "Analysis failed" else d
  | none => "Analysis failed"

/-- The 422 detail the backend sends for a missing required response. -/
def missingQ1Detail : String := "missing response for question q1"

/-- The axios error carried by a rejected submission: a 422 response whose
detail names the missing question id. -/
def rejected422Error : AxiosError :=
  { code := none, status := some 422, detail := some missingQ1Detail,
    message := none }

/-- C4 counterexample: a rejected questionnaire submission whose 422 detail
names the missing question id does not reach the user; the questionnaire
component replaces it with a generic message, contradicting the claim. -/
theorem claim_C4_counterexample :
    submitQuestionnaireCatchMessage rejected422Error ≠ missingQ1Detail ∧
    submitQuestionnaireCatchMessage rejected422Error =
      "Failed to submit questionnaire. Please try again." := by
  exact ⟨by decide, rfl⟩

/-- C4 amended: backend error details are surfaced verbatim only by some
components.  `CareerAnalysis.runAnalysis` shows a non-empty
`response.data.detail` unchanged, but
`OnboardingQuestionnaire.submitQuestionnaire` replaces every failure —
including the 422 detail naming a missing question id — with the fixed
generic message, after `ApiService.submitQuestionnaire` has propagated the
error unchanged. -/
theorem claim_C4 (e : AxiosError) (d : String) (hd : d ≠ "") :
    submitQuestionnaireCatchMessage e = "Failed to submit questionnaire. Please try again." ∧
    runAnalysisCatchMessage { e with detail := some d } = d ∧
    apiSubmitQuestionnaire (α := AxiosError) (.failure e) = .error e := by
  refine ⟨rfl, ?_, rfl⟩
  simp [runAnalysisCatchMessage, hd]

theorem claim_C4_witness :
    (missingQ1Detail ≠ "") ∧
    runAnalysisCatchMessage { rejected422Error with detail := some missingQ1Detail } =
      missingQ1Detail :=
  ⟨by decide, (claim_C4 rejected422Error missingQ1Detail (by decide)).2.1⟩

/-! ### Timeout handling of LLM-backed calls (claim C5) -/

/-- The axios error produced when the 10-second timeout expires. -/
def timeoutError : AxiosError :=
  { code := some "ECONNABORTED", status := none, detail := none,
    message := some "timeout of 10000ms exceeded" }

/-- The error-message mapping of `Analytics.loadSkillsAnalysis`: timeout,
server error, backend detail, generic network error, then a default. -/
def loadSkillsAnalysisMessage (e : AxiosError) : String :=
  if e.code = some "ECONNABORTED" then
    "Request timed out. The AI analysis is taking longer than expected. Please try again."
  else if e.status = some 500 then
    "Server error occurred during skill analysis. Please try again later."
  else
    match e.detail with
    | some d => if d = "" then fallbackSkillsMessage e else d
    | none => fallbackSkillsMessage e
where
  /-- `error.message` branch and the final default. -/
  fallbackSkillsMessage (e : AxiosError) : String :=
    match e.message with
    | some m => if m = "" then "Failed to analyze skills. Please check your connection and try again."
                else "Network error: " ++ m
    | none => "Failed to analyze skills. Please check your connection and try again."

/-- C5 counterexample: when the bounded timeout on the conversational
counseling call expires, `chatWithCounselor` resolves with the hard-coded
mock reply instead of surfacing an error — the failure is silently replaced
by substitute content, contradicting the claim. -/
theorem claim_C5_counterexample :
    chatWithCounselor (.failure timeoutError) = .ok mockChatResponse ∧
    (chatWithCounselor (.failure timeoutError)).isOk = true :=
  ⟨rfl, rfl⟩

/-- C5 amended: every outbound call goes through the shared axios instance
with a bounded 10000 ms timeout, and the skills-analysis path surfaces an
expired timeout as a visible error message, but the conversational counseling
call (`chatWithCounselor`) silently replaces any failure, timeouts included,
with hard-coded mock content. -/
theorem claim_C5 :
    apiTimeoutMs = 10000 ∧
    (∀ (e : AxiosError), chatWithCounselor (.failure e) = .ok mockChatResponse) ∧
    (∀ (α : Type) (e : AxiosError), getSkillDemandAnalysis (α := α) (.failure e) = .error e) ∧
    loadSkillsAnalysisMessage timeoutError =
      "Request timed out. The AI analysis is taking longer than expected. Please try again." :=
  ⟨rfl, fun _ => rfl, fun _ _ => rfl, rfl⟩

/-! ### Submission processing and scoring (claims C1, C2)

The backend submission processor and scoring engine are not among the source
files; only their frontend callers are.  The definitions in this section are
Modelled from the spec (sections 4.2, 4.3 and 6). -/

/-- Modelled from the spec: the backend error taxonomy (section 7); the
submission processor and recommendation endpoints are missing from the
sources. -/
inductive ApiError
  | validation (detail : String)
  | notFound (detail : String)
  | upstream (detail : String)
deriving DecidableEq, Repr

/-- Modelled from the spec: the persisted assessment record — user identifier,
per-trait numeric scores for a fixed set of named traits, free-text
narrative. -/
structure AssessmentResult where
  user_id : String
  trait_scores : List (String × ℚ)
  narrative : String
deriving DecidableEq, Repr

/-- The fixed trait set: the five personality traits and the six interest
categories. -/
def traitNames : List String :=
  ["openness", "conscientiousness", "extraversion", "agreeableness", "neuroticism",
   "realistic", "investigative", "artistic", "social", "enterprising", "conventional"]

/-- Modelled from the spec: numeric normalization of one answer (section 4.3,
scoring engine missing from the sources).  Scale responses are linearly
normalized to the unit interval using their declared range, multiple-choice
responses go through the static option-score table, and free-text responses
are excluded from numeric scoring. -/
def normalizeAnswer (optScore : String → ℚ) (q : Question) (a : Answer) : Option ℚ :=
  if q.question_type = "scale" then
    match a, q.scale_min, q.scale_max with
    | .num n, some lo, some hi =>
        if lo < hi then some (((n : ℚ) - (lo : ℚ)) / ((hi : ℚ) - (lo : ℚ))) else none
    | _, _, _ => none
  else if q.question_type = "multiple_choice" then
    match a with
    | .str s => some (optScore s)
    | _ => none
  else none

/-- Modelled from the spec: the trait tag and weighted, normalized value one
response contributes (its question located by id; the question category is
the trait tag and its importance the weight). -/
def respContribution (optScore : String → ℚ) (qs : List Question) (r : QResponse) :
    Option (String × ℚ × ℚ) :=
  match qs.find? (fun q => q.id == r.question_id) with
  | none => none
  | some q =>
      match normalizeAnswer optScore q r.response with
      | none => none
      | some v => some (q.category, q.importance, v)

/-- The weight-value pairs contributing to one trait. -/
def contributionsFor (t : String) (cs : List (String × ℚ × ℚ)) : List (ℚ × ℚ) :=
  (cs.filter (fun c => c.1 == t)).map (fun c => c.2)

/-- Modelled from the spec: weighted average of normalized values, with the
neutral midpoint `0.5` when no responses tag the trait. -/
def weightedAvg (ps : List (ℚ × ℚ)) : ℚ :=
  if (ps.map Prod.fst).sum = 0 then 1 / 2
  else (ps.map (fun p => p.1 * p.2)).sum / (ps.map Prod.fst).sum

/-- Modelled from the spec: the scoring engine output — every named trait gets
a weighted-average score, defaulting to the neutral midpoint. -/
def scoreResponses (optScore : String → ℚ) (qs : List Question) (rs : List QResponse) :
    List (String × ℚ) :=
  let cs := rs.filterMap (respContribution optScore qs)
  traitNames.map (fun t => (t, weightedAvg (contributionsFor t cs)))

/-- The trait with the highest score, used for the narrative template. -/
def dominantTrait (scores : List (String × ℚ)) : String :=
  match scores.foldl
      (fun acc p =>
        match acc with
        | none => some p
        | some b => if b.2 < p.2 then some p else some b) none with
  | some p => p.1
  | none => "balanced"

/-- Modelled from the spec: narrative string templated from the dominant
traits. -/
def narrativeFor (scores : List (String × ℚ)) : String :=
  "Your dominant trait is " ++ dominantTrait scores ++ "."

/-- The first required question with no matching response, if any. -/
def missingRequired (qs : List Question) (rs : List QResponse) : Option Question :=
  qs.find? (fun q => q.required && !(rs.any (fun r => r.question_id == q.id)))

/-- Modelled from the spec: the submission processor behind
`POST /api/questionnaire/submit/{user_id}` (section 4.2, missing from the
sources).  A required question with no matching response yields a
`ValidationError` whose 422 detail names the missing question id; otherwise
the scoring engine runs and an assessment record is returned. -/
def processSubmission (optScore : String → ℚ) (uid : String)
    (qs : List Question) (rs : List QResponse) : Except ApiError AssessmentResult :=
  match missingRequired qs rs with
  | some q => .error (.validation ("missing response for question " ++ q.id))
  | none =>
      .ok { user_id := uid, trait_scores := scoreResponses optScore qs rs,
            narrative := narrativeFor (scoreResponses optScore qs rs) }

/-- The percentage bar width drawn by `renderPersonalityResults`:
`width: (score * 100)%`. -/
def personalityBarWidth (score : ℚ) : ℚ := score * 100

/-- C1: a submission missing a response for some required question fails with
a `ValidationError` naming a missing required question id, and no
AssessmentResult is produced. -/
theorem claim_C1 (optScore : String → ℚ) (uid : String)
    (qs : List Question) (rs : List QResponse)
    (hmiss : ∃ q ∈ qs, q.required = true ∧ ∀ r ∈ rs, r.question_id ≠ q.id) :
    ∃ q ∈ qs, q.required = true ∧ (∀ r ∈ rs, r.question_id ≠ q.id) ∧
      processSubmission optScore uid qs rs =
        .error (.validation ("missing response for question " ++ q.id)) ∧
      ∀ res, processSubmission optScore uid qs rs ≠ .ok res := by
  cases hfind : missingRequired qs rs with
  | none =>
    exfalso
    unfold missingRequired at hfind
    rw [List.find?_eq_none] at hfind
    obtain ⟨q, hq, hreq, hnone⟩ := hmiss
    apply hfind q hq
    simp only [hreq, Bool.true_and, Bool.not_eq_true']
    rw [List.any_eq_false]
    intro r hr
    simpa using hnone r hr
  | some q =>
    have hfind' : missingRequired qs rs = some q := hfind
    unfold missingRequired at hfind
    have hqmem := List.mem_of_find?_eq_some hfind
    have hpred := List.find?_some hfind
    simp only [Bool.and_eq_true, Bool.not_eq_true'] at hpred
    obtain ⟨hreq, hany⟩ := hpred
    rw [List.any_eq_false] at hany
    refine ⟨q, hqmem, hreq, ?_, ?_, ?_⟩
    · intro r hr
      simpa using hany r hr
    · unfold processSubmission
      rw [hfind']
    · intro res hres
      unfold processSubmission at hres
      rw [hfind'] at hres
      simp at hres

theorem claim_C1_witness :
    ∃ q ∈ [sampleQuestion], q.required = true ∧
      (∀ r ∈ ([] : List QResponse), r.question_id ≠ q.id) ∧
      processSubmission (fun _ => 1 / 2) "u1" [sampleQuestion] [] =
        .error (.validation ("missing response for question " ++ q.id)) ∧
      ∀ res, processSubmission (fun _ => 1 / 2) "u1" [sampleQuestion] [] ≠ .ok res :=
  claim_C1 (fun _ => 1 / 2) "u1" [sampleQuestion] []
    ⟨sampleQuestion, by simp, rfl, by simp⟩

/-- Validity of scale answers: every response to a scale question lies within
the declared range of its question. -/
def ScaleResponsesInRange (qs : List Question) (rs : List QResponse) : Prop :=
  ∀ r ∈ rs, ∀ q ∈ qs, q.id = r.question_id →
    ∀ (n lo hi : Int), r.response = Answer.num n → q.scale_min = some lo →
      q.scale_max = some hi → lo ≤ n ∧ n ≤ hi

theorem sum_fst_nonneg (ps : List (ℚ × ℚ)) (h : ∀ p ∈ ps, 0 ≤ p.1) :
    0 ≤ (ps.map Prod.fst).sum := by
  induction ps with
  | nil => simp
  | cons a rest ih =>
    simp only [List.map_cons, List.sum_cons]
    have ha := h a (List.mem_cons_self a rest)
    have hr := ih (fun p hp => h p (List.mem_cons_of_mem a hp))
    linarith

theorem sum_mul_nonneg (ps : List (ℚ × ℚ)) (h : ∀ p ∈ ps, 0 ≤ p.1 ∧ 0 ≤ p.2) :
    0 ≤ (ps.map (fun p => p.1 * p.2)).sum := by
  induction ps with
  | nil => simp
  | cons a rest ih =>
    simp only [List.map_cons, List.sum_cons]
    have ha := h a (List.mem_cons_self a rest)
    have hr := ih (fun p hp => h p (List.mem_cons_of_mem a hp))
    have := mul_nonneg ha.1 ha.2
    linarith

theorem sum_mul_le_sum_fst (ps : List (ℚ × ℚ)) (h : ∀ p ∈ ps, 0 ≤ p.1 ∧ p.2 ≤ 1) :
    (ps.map (fun p => p.1 * p.2)).sum ≤ (ps.map Prod.fst).sum := by
  induction ps with
  | nil => simp
  | cons a rest ih =>
    simp only [List.map_cons, List.sum_cons]
    have ha := h a (List.mem_cons_self a rest)
    have hr := ih (fun p hp => h p (List.mem_cons_of_mem a hp))
    have := mul_le_of_le_one_right ha.1 ha.2
    linarith

/-- A weighted average of unit-interval values with nonnegative weights stays
in the unit interval; the empty or weightless case is the neutral midpoint. -/
theorem weightedAvg_bounds (ps : List (ℚ × ℚ))
    (h : ∀ p ∈ ps, 0 ≤ p.1 ∧ 0 ≤ p.2 ∧ p.2 ≤ 1) :
    0 ≤ weightedAvg ps ∧ weightedAvg ps ≤ 1 := by
  unfold weightedAvg
  split
  · norm_num
  · rename_i hw
    have hsum : 0 ≤ (ps.map Prod.fst).sum := sum_fst_nonneg ps (fun p hp => (h p hp).1)
    have hpos : 0 < (ps.map Prod.fst).sum := lt_of_le_of_ne hsum (Ne.symm hw)
    constructor
    · exact div_nonneg (sum_mul_nonneg ps (fun p hp => ⟨(h p hp).1, (h p hp).2.1⟩)) hsum
    · rw [div_le_one hpos]
      exact sum_mul_le_sum_fst ps (fun p hp => ⟨(h p hp).1, (h p hp).2.2⟩)

/-- Every contribution extracted from a valid response set carries a
nonnegative weight and a value in the unit interval. -/
theorem contribution_bounds (optScore : String → ℚ)
    (hopt : ∀ s, 0 ≤ optScore s ∧ optScore s ≤ 1)
    (qs : List Question) (himp : ∀ q ∈ qs, 0 ≤ q.importance)
    (rs : List QResponse) (hscale : ScaleResponsesInRange qs rs) :
    ∀ c ∈ rs.filterMap (respContribution optScore qs),
      0 ≤ c.2.1 ∧ 0 ≤ c.2.2 ∧ c.2.2 ≤ 1 := by
  intro c hc
  rw [List.mem_filterMap] at hc
  obtain ⟨r, hr, hcr⟩ := hc
  unfold respContribution at hcr
  cases hfind : qs.find? (fun q => q.id == r.question_id) with
  | none => rw [hfind] at hcr; simp at hcr
  | some q =>
    rw [hfind] at hcr
    dsimp only at hcr
    have hqmem : q ∈ qs := List.mem_of_find?_eq_some hfind
    have hqid : q.id = r.question_id := by simpa using List.find?_some hfind
    cases hnorm : normalizeAnswer optScore q r.response with
    | none => rw [hnorm] at hcr; simp at hcr
    | some v =>
      rw [hnorm] at hcr
      dsimp only at hcr
      have hc' : (q.category, q.importance, v) = c := by simpa using hcr
      subst hc'
      refine ⟨himp q hqmem, ?_⟩
      unfold normalizeAnswer at hnorm
      split at hnorm
      · split at hnorm
        · rename_i n lo hi heqa heqlo heqhi
          split at hnorm
          · rename_i hlt
            have hv : ((n : ℚ) - (lo : ℚ)) / ((hi : ℚ) - (lo : ℚ)) = v := by
              simpa using hnorm
            have hrange := hscale r hr q hqmem hqid n lo hi heqa heqlo heqhi
            have hlo : (lo : ℚ) ≤ (n : ℚ) := by exact_mod_cast hrange.1
            have hhi : (n : ℚ) ≤ (hi : ℚ) := by exact_mod_cast hrange.2
            have hlt' : (lo : ℚ) < (hi : ℚ) := by exact_mod_cast hlt
            have hden : (0 : ℚ) < (hi : ℚ) - (lo : ℚ) := by linarith
            constructor
            · rw [← hv]
              exact div_nonneg (by linarith) (le_of_lt hden)
            · rw [← hv, div_le_one hden]
              linarith
          · simp at hnorm
        · simp at hnorm
      · split at hnorm
        · split at hnorm
          · rename_i s heqa
            have hv : optScore s = v := by simpa using hnorm
            rw [← hv]
            exact ⟨(hopt s).1, (hopt s).2⟩
          · simp at hnorm
        · simp at hnorm

/-- Every trait score produced by the scoring engine on a valid response set
lies in the unit interval. -/
theorem scoreResponses_bounds (optScore : String → ℚ)
    (hopt : ∀ s, 0 ≤ optScore s ∧ optScore s ≤ 1)
    (qs : List Question) (himp : ∀ q ∈ qs, 0 ≤ q.importance)
    (rs : List QResponse) (hscale : ScaleResponsesInRange qs rs) :
    ∀ p ∈ scoreResponses optScore qs rs, 0 ≤ p.2 ∧ p.2 ≤ 1 := by
  intro p hp
  unfold scoreResponses at hp
  rw [List.mem_map] at hp
  obtain ⟨t, ht, hpt⟩ := hp
  subst hpt
  apply weightedAvg_bounds
  intro pr hpr
  unfold contributionsFor at hpr
  rw [List.mem_map] at hpr
  obtain ⟨c, hcmem, hc2⟩ := hpr
  rw [List.mem_filter] at hcmem
  have hb := contribution_bounds optScore hopt qs himp rs hscale c hcmem.1
  rw [← hc2]
  exact hb

/-- If every required question has a matching response, validation finds no
missing question. -/
theorem missingRequired_eq_none (qs : List Question) (rs : List QResponse)
    (hcov : ∀ q ∈ qs, q.required = true → ∃ r ∈ rs, r.question_id = q.id) :
    missingRequired qs rs = none := by
  unfold missingRequired
  rw [List.find?_eq_none]
  intro q hq
  simp only [Bool.and_eq_true, Bool.not_eq_true', Bool.not_eq_true]
  intro hcontra
  obtain ⟨hreq, hany⟩ := hcontra
  rw [List.any_eq_false] at hany
  obtain ⟨r, hr, hid⟩ := hcov q hq hreq
  exact hany r hr (by simpa using hid)

/-- C2: a valid response set covering every required question yields an
AssessmentResult whose trait scores all lie in the closed unit interval, so
the percentage bars drawn by `renderPersonalityResults` (score times 100)
never leave 0 to 100 percent. -/
theorem claim_C2 (optScore : String → ℚ) (uid : String)
    (qs : List Question) (rs : List QResponse)
    (hopt : ∀ s, 0 ≤ optScore s ∧ optScore s ≤ 1)
    (himp : ∀ q ∈ qs, 0 ≤ q.importance)
    (hscale : ScaleResponsesInRange qs rs)
    (hcov : ∀ q ∈ qs, q.required = true → ∃ r ∈ rs, r.question_id = q.id) :
    ∃ res, processSubmission optScore uid qs rs = .ok res ∧
      ∀ p ∈ res.trait_scores,
        (0 ≤ p.2 ∧ p.2 ≤ 1) ∧
        (0 ≤ personalityBarWidth p.2 ∧ personalityBarWidth p.2 ≤ 100) := by
  have hnone := missingRequired_eq_none qs rs hcov
  refine ⟨_, by unfold processSubmission; rw [hnone], ?_⟩
  intro p hp
  have hb := scoreResponses_bounds optScore hopt qs himp rs hscale p hp
  refine ⟨hb, ?_⟩
  unfold personalityBarWidth
  constructor
  · nlinarith [hb.1]
  · nlinarith [hb.2]

/-- A concrete valid scale response to the sample question. -/
def sampleResponse : QResponse :=
  { question_id := "q1", response := Answer.num 7,
    timestamp := "2024-01-01T00:00:00Z" }

theorem claim_C2_witness :
    ∃ res, processSubmission (fun _ => 1 / 2) "u1" [sampleQuestion] [sampleResponse] =
        .ok res ∧
      ∀ p ∈ res.trait_scores,
        (0 ≤ p.2 ∧ p.2 ≤ 1) ∧
        (0 ≤ personalityBarWidth p.2 ∧ personalityBarWidth p.2 ≤ 100) := by
  apply claim_C2
  · intro s
    norm_num
  · intro q hq
    simp only [List.mem_singleton] at hq
    subst hq
    norm_num [sampleQuestion]
  · intro r hr q hq hid n lo hi hresp hlo hhi
    simp only [List.mem_singleton] at hr hq
    subst hr
    subst hq
    simp only [sampleQuestion] at hlo hhi
    simp only [sampleResponse] at hresp
    cases hresp
    cases hlo
    cases hhi
    omega
  · intro q hq hreq
    simp only [List.mem_singleton] at hq
    subst hq
    exact ⟨sampleResponse, by simp, rfl⟩

/-! ### Recommendation composer (claims C3, C6)

The backend recommendation composer is not among the source files; these
definitions are Modelled from the spec (section 4.4). -/

/-- Modelled from the spec: one entry of the static career-reference table —
title, required trait profile and market-demand weight. -/
structure CareerRef where
  title : String
  traits : List (String × ℚ)
  demand : ℚ
deriving DecidableEq, Repr

/-- Modelled from the spec: a derived career recommendation — title, numeric
match score, rationale text and suggested next actions. -/
structure CareerRecommendation where
  title : String
  match_score : ℚ
  rationale : String
  next_actions : List String
deriving DecidableEq, Repr

/-- Trait lookup in an assessment, defaulting to the neutral midpoint so that
the composer never sees a missing key. -/
def traitLookup (scores : List (String × ℚ)) (t : String) : ℚ :=
  match scores.find? (fun p => p.1 == t) with
  | some p => p.2
  | none => 1 / 2

/-- Squared Euclidean distance between the user trait vector and a career
reference vector. -/
def sqDist (a : AssessmentResult) (c : CareerRef) : ℚ :=
  (c.traits.map (fun p => (traitLookup a.trait_scores p.1 - p.2) ^ 2)).sum

/-- Modelled from the spec: weighted Euclidean closeness scaled to the 0-100
range. -/
def matchScore (a : AssessmentResult) (c : CareerRef) : ℚ :=
  100 / (1 + sqDist a c)

/-- A career together with its computed match score and the reference data
needed for tie-breaking. -/
structure ScoredCareer where
  title : String
  score : ℚ
  demand : ℚ
  rationale : String
deriving DecidableEq, Repr

/-- The two reference traits on which the user scores highest, for the
rationale template. -/
def topTwoTraits (a : AssessmentResult) (c : CareerRef) : List String :=
  (((c.traits.map (fun p => (p.1, traitLookup a.trait_scores p.1))).insertionSort
      (fun p q => q.2 ≤ p.2)).take 2).map Prod.fst

/-- Modelled from the spec: rationale text assembled from the top two
contributing traits. -/
def rationaleFor (a : AssessmentResult) (c : CareerRef) : String :=
  match topTwoTraits a c with
  | [t1, t2] => "Driven by your " ++ t1 ++ " and " ++ t2 ++ " scores."
  | [t1] => "Driven by your " ++ t1 ++ " score."
  | _ => "Based on your overall profile."

def scoreCareer (a : AssessmentResult) (c : CareerRef) : ScoredCareer :=
  { title := c.title, score := matchScore a c, demand := c.demand,
    rationale := rationaleFor a c }

/-- Sort key: descending match score, then descending demand weight, then
ascending title, encoded lexicographically. -/
def recKey (x : ScoredCareer) : Lex (ℚ × Lex (ℚ × String)) :=
  toLex (-x.score, toLex (-x.demand, x.title))

/-- The composer ordering. -/
def recOrder (x y : ScoredCareer) : Prop := recKey x ≤ recKey y

instance : DecidableRel recOrder := fun x y =>
  inferInstanceAs (Decidable (recKey x ≤ recKey y))

instance : IsTotal ScoredCareer recOrder := ⟨fun x y => le_total (recKey x) (recKey y)⟩

instance : IsTrans ScoredCareer recOrder := ⟨fun _ _ _ hxy hyz => le_trans hxy hyz⟩

/-- The composer ordering spelled out in the terms of the spec: higher match
score first, ties by higher demand weight, then lexical title order. -/
def tieOrder (x y : ScoredCareer) : Prop :=
  y.score < x.score ∨
    (x.score = y.score ∧
      (y.demand < x.demand ∨ (x.demand = y.demand ∧ x.title ≤ y.title)))

theorem recOrder_iff (x y : ScoredCareer) : recOrder x y ↔ tieOrder x y := by
  unfold recOrder recKey tieOrder
  rw [Prod.Lex.le_iff, Prod.Lex.le_iff]
  simp [neg_lt_neg_iff, neg_inj]

/-- The configurable result size, default 5. -/
def defaultTopN : Nat := 5

/-- All careers scored and sorted by the composer ordering. -/
def rankCareers (a : AssessmentResult) (refs : List CareerRef) : List ScoredCareer :=
  (refs.map (scoreCareer a)).insertionSort recOrder

def toRecommendation (x : ScoredCareer) : CareerRecommendation :=
  { title := x.title, match_score := x.score, rationale := x.rationale,
    next_actions :=
      ["Research the role of " ++ x.title, "Identify skill gaps",
       "Plan next learning steps"] }

/-- Modelled from the spec: the recommendation composer — score every
reference entry, sort by the composer ordering, keep the top N. -/
def composeRecommendations (N : Nat) (a : AssessmentResult) (refs : List CareerRef) :
    List CareerRecommendation :=
  ((rankCareers a refs).take N).map toRecommendation

theorem rankCareers_sorted (a : AssessmentResult) (refs : List CareerRef) :
    List.Sorted recOrder (rankCareers a refs) :=
  List.sorted_insertionSort recOrder _

/-- C3: the composer output is sorted descending by match score with ties
resolved by demand weight and then title, has at most N entries (default 5),
and is a deterministic, idempotent function of the assessment and the
reference table. -/
theorem claim_C3 (N : Nat) (a : AssessmentResult) (refs : List CareerRef) :
    List.Pairwise tieOrder ((rankCareers a refs).take N) ∧
    List.Pairwise (fun x y => y.match_score ≤ x.match_score)
      (composeRecommendations N a refs) ∧
    (composeRecommendations N a refs).length ≤ N ∧
    composeRecommendations N a refs = composeRecommendations N a refs ∧
    defaultTopN = 5 := by
  have htake : List.Pairwise recOrder ((rankCareers a refs).take N) :=
    (rankCareers_sorted a refs).sublist (List.take_sublist N _)
  have htie : List.Pairwise tieOrder ((rankCareers a refs).take N) :=
    htake.imp (fun h => (recOrder_iff _ _).mp h)
  refine ⟨htie, ?_, ?_, rfl, rfl⟩
  · unfold composeRecommendations
    rw [List.pairwise_map]
    refine htie.imp ?_
    intro x y h
    rcases h with h | ⟨h, _⟩
    · exact le_of_lt h
    · exact le_of_eq h.symm
  · unfold composeRecommendations
    rw [List.length_map, List.length_take]
    exact min_le_left _ _

/-! ### Recommendations for a user with no assessment (claim C6) -/

/-- Modelled from the spec: the handler behind
`GET /api/agents/recommendations/{user_id}` (missing from the sources).
With no stored AssessmentResult for the user it returns a payload flagged
`requires_questionnaire: true`; otherwise it composes recommendations from
the stored assessment. -/
def getRecommendationsForUser (store : String → Option AssessmentResult)
    (refs : List CareerRef) (uid : String) : AgentRecommendations :=
  match store uid with
  | none =>
      { requires_questionnaire := true, recommendations := [], confidence := 0,
        explanation := "Complete the career questionnaire to unlock personalized recommendations" }
  | some a =>
      { requires_questionnaire := false,
        recommendations := (composeRecommendations defaultTopN a refs).map
          (fun r => r.title),
        confidence := 0.8,
        explanation := "Based on your latest assessment" }

/-- Branches of the dashboard recommendations card: the questionnaire-required
prompt, the top-recommendation highlight, or the empty fallback. -/
inductive DashboardRecView
  | questionnaireRequired
  | highlight (top : String)
  | noRecommendations
deriving DecidableEq, Repr

/-- The dashboard card dispatch: `requires_questionnaire` first, then the
non-empty recommendations list, then the fallback. -/
def dashboardRecommendationsView (r : AgentRecommendations) : DashboardRecView :=
  if r.requires_questionnaire then .questionnaireRequired
  else
    match r.recommendations with
    | [] => .noRecommendations
    | top :: _ => .highlight top

/-- C6: requesting recommendations for a user with no stored AssessmentResult
returns a normal payload carrying `requires_questionnaire: true`, which the
dashboard renders as the Questionnaire Required prompt. -/
theorem claim_C6 (store : String → Option AssessmentResult)
    (refs : List CareerRef) (uid : String) (h : store uid = none) :
    (getRecommendationsForUser store refs uid).requires_questionnaire = true ∧
    dashboardRecommendationsView (getRecommendationsForUser store refs uid) =
      .questionnaireRequired := by
  unfold getRecommendationsForUser
  rw [h]
  exact ⟨rfl, rfl⟩

theorem claim_C6_witness :
    ((fun _ => none : String → Option AssessmentResult) "u1" = none) ∧
    dashboardRecommendationsView
        (getRecommendationsForUser (fun _ => none) [] "u1") =
      DashboardRecView.questionnaireRequired :=
  ⟨rfl, (claim_C6 (fun _ => none) [] "u1" rfl).2⟩

end CareerAdvisor
